import Mathlib

/-!
Verification development for the youtube_playlist_rearrange repository.

The Python sources (main.py, youtube_api.py, gemini_logic.py) are shallowly
embedded below: pure data flow becomes Lean functions, the sequential remote
calls of the execution phase are driven by an environment that maps the index
of each remote call (calls are strictly sequential) to its outcome, and
process exits are modelled by an explicit Outcome type.
-/

namespace PlaylistRearrange

/-- One entry of the video info cache, as built by
fetch_video_details_in_batches in youtube_api.py: a dict with keys
"video_id", "title" and "description". -/
structure VideoRecord where
  video_id : String
  title : String
  description : String
deriving Repr, DecidableEq

/-- One track task of a grouping, as built by run_analysis_phase in main.py:
a dict with keys "index" (0-based position into the cached video list, an
integer produced by the model, hence Int) and "status". -/
structure Track where
  index : Int
  status : String
deriving Repr, DecidableEq

/-- One grouping of the run state, as enriched by run_analysis_phase in
main.py lines 91-96: the model output fields playlist_title and
playlist_description plus status, tracks and youtube_playlist_id. -/
structure Playlist where
  playlist_title : String
  playlist_description : String
  status : String
  youtube_playlist_id : Option String
  tracks : List Track
deriving Repr, DecidableEq

/-- A googleapiclient HttpError as far as main.py inspects it: e.resp.status
is the HTTP status code, msg models str(e). -/
structure HttpErr where
  status : Nat
  msg : String
deriving Repr, DecidableEq

/-- Whether the first list is an initial segment of the second. -/
def beginsWith : List Char → List Char → Bool
  | [], _ => true
  | _ :: _, [] => false
  | p :: ps, c :: cs => p == c && beginsWith ps cs

/-- Whether pat occurs as a contiguous run inside the second list: the
Python substring test pat in s. -/
def hasSub (pat : List Char) : List Char → Bool
  | [] => pat.isEmpty
  | c :: cs => beginsWith pat (c :: cs) || hasSub pat cs

/-- Quota classification of main.py lines 130 and 156: the call failed
with HTTP 403 and "quota" occurs in the lowercased error text (the test
is quota in str(e).lower(); lowercasing is modelled per character). -/
def isQuotaError (e : HttpErr) : Bool :=
  e.status == 403 && hasSub "quota".toList (e.msg.toList.map Char.toLower)

/-- Python truthiness of an optional string: None and the empty string are
falsy, every other string is truthy. -/
def truthyOptStr : Option String → Bool
  | none => false
  | some s => !(s == "")

/- ## Collector: youtube_api.py -/

/-- The paginated playlistItems listing of youtube_api.py lines 26-42,
with the remote service modelled as a map from a playlist id to its
sequence of response pages (the while loop follows nextPageToken until it
is absent, so it collects exactly the concatenation of the pages).  This
is the list all_track_ids of line 24: every membership entry, in playlist
order then page order, duplicates included. -/
def fetch_all_playlist_track_ids (pages : String → List (List String))
    (playlist_ids : List String) : List String :=
  (playlist_ids.map (fun pid => (pages pid).flatten)).flatten

/-- Membership test of a Python set built from the list xs, together with
the shape of any iteration of that set (line 44 of youtube_api.py returns
set(all_track_ids), and main.py line 73 runs list() over it): an
iteration yields each element of the set exactly once, in an order that is
implementation defined (string hashing is randomized), modelled as any
duplicate-free enumeration of the members of xs. -/
def IsSetEnum (l xs : List String) : Prop :=
  l.Nodup ∧ ∀ x, x ∈ l ↔ x ∈ xs

/-- First-seen-order deduplication, the order the specification ascribes to
collect_unique_ids; auxiliary accumulator form. -/
def firstSeenAux (seen : List String) : List String → List String
  | [] => []
  | x :: xs =>
    if x ∈ seen then firstSeenAux seen xs
    else x :: firstSeenAux (x :: seen) xs

/-- First-seen-order deduplication of a list. -/
def firstSeen (xs : List String) : List String := firstSeenAux [] xs

/-- Batched metadata fetch of youtube_api.py lines 48-83.  The remote
videos().list response for a batch is modelled by resolve: the response
holds one record per requested id that exists remotely, in request order;
ids with no remote record are simply absent from the response.  The while
loop takes successive islice chunks of size 50 (BATCH_SIZE) and extends
the accumulator with each response. -/
def fetch_video_details_in_batches (resolve : String → Option VideoRecord) :
    List String → List VideoRecord
  | [] => []
  | x :: xs =>
    ((x :: xs).take 50).filterMap resolve
      ++ fetch_video_details_in_batches resolve ((x :: xs).drop 50)
termination_by ids => ids.length
decreasing_by
  simp only [List.length_drop, List.length_cons]
  omega

/-- The consecutive chunks of size 50 that the islice loop of
fetch_video_details_in_batches walks through. -/
def chunks50 : List String → List (List String)
  | [] => []
  | x :: xs => ((x :: xs).take 50) :: chunks50 ((x :: xs).drop 50)
termination_by ids => ids.length
decreasing_by
  simp only [List.length_drop, List.length_cons]
  omega

/- ## Executor: main.py run_execution_phase -/

/-- Outcome of a remote call sequence.  The execution phase performs its
remote calls strictly sequentially, so the remote service is modelled as a
pair of response functions keyed by the index of the call (how many remote
calls, creations and insertions together, were made before it).  create
receives the playlist title and description (youtube_api.py lines 85-98,
returning the new playlist id); insert receives the target playlist id and
the video id (youtube_api.py lines 100-114). -/
structure Env where
  create : Nat → String → String → Except HttpErr String
  insert : Nat → String → String → Except HttpErr Unit

/-- The lookup dict of main.py line 117, index_to_video_id, built from the
enumerated video info cache, queried with .get (missing key yields None).
The model output for index i is the video_id of the i-th cache entry when
0 <= i < length, None otherwise. -/
def index_to_video_id (cache : List VideoRecord) (i : Int) : Option String :=
  if i < 0 then none
  else (cache.get? i.toNat).map VideoRecord.video_id

/-- Result of the playlist-creation step of main.py lines 124-135 for one
playlist: ready p n means execution proceeds to track insertion with the
(possibly updated) playlist and call counter; skip n means a non-quota
creation error occurred, so the loop logs and continues with the next
playlist; quotaStop n means a quota error occurred and save_and_exit runs. -/
inductive CreateStep where
  | ready (p : Playlist) (n : Nat)
  | skip (n : Nat)
  | quotaStop (n : Nat)

/-- Playlist-creation step, main.py lines 124-135: if the stored
youtube_playlist_id is falsy (None or empty), attempt the creation call;
on success store the returned id; on an HttpError either stop for quota or
log and continue.  A truthy stored id skips the call. -/
def createStep (env : Env) (p : Playlist) (n : Nat) : CreateStep :=
  if truthyOptStr p.youtube_playlist_id then .ready p n
  else
    match env.create n p.playlist_title p.playlist_description with
    | .ok pid => .ready { p with youtube_playlist_id := some pid } (n + 1)
    | .error e => if isQuotaError e then .quotaStop (n + 1) else .skip (n + 1)

/-- Track-insertion loop of main.py lines 139-161 for one playlist.  The
code first filters the PENDING tracks (line 139) and then mutates those
dicts in place, which is the same as walking the track list once and
processing exactly the PENDING entries, as done here.  For a PENDING
track: a falsy looked-up video id (missing index, or empty id, line 146)
marks it SKIPPED without a remote call; otherwise the insertion call is
made, success marks COMPLETED, a non-quota HttpError marks FAILED, and a
quota HttpError triggers save_and_exit, leaving this track and the rest of
the list untouched.  Returns the updated track list, the new call counter,
and whether a quota stop happened. -/
def runTracks (env : Env) (cache : List VideoRecord) (pid : String) :
    List Track → Nat → List Track × Nat × Bool
  | [], n => ([], n, false)
  | t :: ts, n =>
    if t.status = "PENDING" then
      match index_to_video_id cache t.index with
      | none =>
        let r := runTracks env cache pid ts n
        ({ t with status := "SKIPPED" } :: r.1, r.2)
      | some tid =>
        if tid = "" then
          let r := runTracks env cache pid ts n
          ({ t with status := "SKIPPED" } :: r.1, r.2)
        else
          match env.insert n pid tid with
          | .ok _ =>
            let r := runTracks env cache pid ts (n + 1)
            ({ t with status := "COMPLETED" } :: r.1, r.2)
          | .error e =>
            if isQuotaError e then (t :: ts, n + 1, true)
            else
              let r := runTracks env cache pid ts (n + 1)
              ({ t with status := "FAILED" } :: r.1, r.2)
    else
      let r := runTracks env cache pid ts n
      (t :: r.1, r.2)

/-- Main loop of run_execution_phase, main.py lines 119-166: iterate the
playlists in stored order; skip a playlist whose status is COMPLETED;
otherwise run the creation step and then the track loop (reading the
playlist id from the dict, line 138); after the tracks, mark the playlist
COMPLETED when no track is left PENDING (lines 163-165).  A quota stop
anywhere returns the state as mutated so far (the remaining playlists and
tracks untouched) with the quota flag set.  Returns the final playlist
list, the total number of remote calls made, and the quota flag. -/
def runPlaylists (env : Env) (cache : List VideoRecord) :
    List Playlist → Nat → List Playlist × Nat × Bool
  | [], n => ([], n, false)
  | p :: ps, n =>
    if p.status = "COMPLETED" then
      let r := runPlaylists env cache ps n
      (p :: r.1, r.2)
    else
      match createStep env p n with
      | .quotaStop n1 => (p :: ps, n1, true)
      | .skip n1 =>
        let r := runPlaylists env cache ps n1
        (p :: r.1, r.2)
      | .ready p1 n1 =>
        let rt := runTracks env cache (p1.youtube_playlist_id.getD "") p1.tracks n1
        if rt.2.2 then ({ p1 with tracks := rt.1 } :: ps, rt.2.1, true)
        else
          let done := rt.1.all (fun t => decide (t.status ≠ "PENDING"))
          let p2 := { p1 with
            tracks := rt.1,
            status := if done then "COMPLETED" else p1.status }
          let r := runPlaylists env cache ps rt.2.1
          (p2 :: r.1, r.2)

/-- Observable outcome of one run of the execution phase: the in-memory
state at the end, the snapshots persisted by save_state during the run (in
order), the number of remote calls made, and the exit code when the
process terminated via sys.exit. -/
structure ExecOutcome where
  final : List Playlist
  saved : List (List Playlist)
  calls : Nat
  code : Option Nat
deriving Repr, DecidableEq

/-- run_execution_phase on an already loaded state (main.py lines
119-169), starting with zero remote calls made.  When the loop stops with
the quota flag, save_and_exit (lines 53-60) persists the current state and
calls sys.exit(0); otherwise line 169 persists the final state and the
function returns normally (no exit). -/
def run_execution_phase (env : Env) (cache : List VideoRecord)
    (st : List Playlist) : ExecOutcome :=
  let r := runPlaylists env cache st 0
  if r.2.2 then
    { final := r.1, saved := [r.1], calls := r.2.1, code := some 0 }
  else
    { final := r.1, saved := [r.1], calls := r.2.1, code := none }

/- ## Process-level modelling: exits, files, startup (main.py, gemini_logic.py) -/

/-- Result of a step that may terminate the process: either a value, or a
process exit with the given status code. -/
inductive Outcome (α : Type) where
  | ok (a : α)
  | exits (code : Nat)
deriving Repr

/-- A parsed JSON value, as returned by json.load in load_state. -/
inductive J where
  | null
  | bool (b : Bool)
  | num (i : Int)
  | str (s : String)
  | arr (elems : List J)
  | obj (fields : List (String × J))

/-- Python truthiness of a parsed JSON value: None, False, 0, the empty
string, the empty list and the empty dict are falsy. -/
def J.truthy : J → Bool
  | .null => false
  | .bool b => b
  | .num i => !(i == 0)
  | .str s => !(s == "")
  | .arr l => !l.isEmpty
  | .obj l => !l.isEmpty

/-- load_state, main.py lines 45-51: returns None when the file does not
exist (FileNotFoundError), otherwise the parsed JSON content.  The file
argument is the content of the file on disk, already parsed, or none when
the file is absent. -/
def load_state (file : Option J) : Option J := file

/-- Key lookup in a parsed JSON object; dict keys are unique so the first
binding wins. -/
def jGet (k : String) : J → Option J
  | .obj fields => go fields
  | _ => none
where go : List (String × J) → Option J
  | [] => none
  | (k1, v) :: rest => if k1 = k then some v else go rest

/-- Conversion of one track dict of the state file into the typed model
(the shape written by run_analysis_phase line 94: integer "index", string
"status"); fields of an unexpected shape get inert defaults. -/
def trackOfJ (j : J) : Track :=
  { index := match jGet "index" j with | some (.num i) => i | _ => -1
    status := match jGet "status" j with | some (.str s) => s | _ => "" }

/-- Conversion of one playlist dict of the state file into the typed model
(the shape written by run_analysis_phase lines 91-96); fields of an
unexpected shape get inert defaults. -/
def playlistOfJ (j : J) : Playlist :=
  { playlist_title := match jGet "playlist_title" j with | some (.str s) => s | _ => ""
    playlist_description :=
      match jGet "playlist_description" j with | some (.str s) => s | _ => ""
    status := match jGet "status" j with | some (.str s) => s | _ => ""
    youtube_playlist_id :=
      match jGet "youtube_playlist_id" j with | some (.str s) => some s | _ => none
    tracks := match jGet "tracks" j with | some (.arr l) => l.map trackOfJ | _ => [] }

/-- The playlist list of the loaded state file, main.py line 119:
playlist_data.get("playlists", []). -/
def playlistsOfJ (j : J) : List Playlist :=
  match jGet "playlists" j with
  | some (.arr l) => l.map playlistOfJ
  | _ => []

/-- Conversion of one cache entry into the typed model (the shape written
by fetch_video_details_in_batches lines 72-79). -/
def videoOfJ (j : J) : VideoRecord :=
  { video_id := match jGet "video_id" j with | some (.str s) => s | _ => ""
    title := match jGet "title" j with | some (.str s) => s | _ => ""
    description := match jGet "description" j with | some (.str s) => s | _ => "" }

/-- The video info cache as loaded from its file (a JSON array of record
dicts). -/
def cacheOfJ (j : J) : List VideoRecord :=
  match j with
  | .arr l => l.map videoOfJ
  | _ => []

/-- run_execution_phase from its file loads onward, main.py lines 109-169:
load both files (lines 109-110); if either loaded value is falsy (missing
file, or content parsing to an empty or otherwise falsy value), print the
cannot-resume diagnostic and sys.exit(1) (lines 112-114); otherwise run
the execution loop on the loaded data. -/
def run_execution_phase_files (env : Env) (stateFile cacheFile : Option J) :
    Outcome ExecOutcome :=
  match load_state stateFile, load_state cacheFile with
  | some pd, some cvi =>
    if pd.truthy && cvi.truthy then
      .ok (run_execution_phase env (cacheOfJ cvi) (playlistsOfJ pd))
    else .exits 1
  | _, _ => .exits 1

/-- Dispatch of main, main.py lines 187-192: phase 1 (the Collector and
Planner, run_analysis_phase) runs exactly when the state file does not
exist on disk; phase 2 always runs. -/
def phase1_runs (state_file_exists : Bool) : Bool := !state_file_exists

/-- load_config, main.py lines 29-36: a missing config.json
(FileNotFoundError) prints a FATAL diagnostic and calls sys.exit(1);
otherwise the parsed config is returned. -/
def load_config (configFile : Option J) : Outcome J :=
  match configFile with
  | some c => .ok c
  | none => .exits 1

/-- get_gemini_client, gemini_logic.py lines 8-17: the argument models the
attempted construction of genai.Client().  On any exception the code
prints two diagnostics (including a FATAL line about GEMINI_API_KEY) and
then calls the bare builtin exit(), which raises SystemExit(None): the
process terminates with exit status 0, not a non-zero status. -/
def get_gemini_client {α : Type} (init : Except String α) : Outcome α :=
  match init with
  | .ok c => .ok c
  | .error _ => .exits 0

/-- One grouping as produced by the Gemini structured output (schema in
gemini_logic.py lines 22-40). -/
structure PlanGroup where
  playlist_title : String
  playlist_description : String
  video_indices : List Int
deriving Repr, DecidableEq

/-- The parsed Gemini response: a dict with the key "playlists" (root
schema of gemini_logic.py lines 42-52). -/
structure PlanData where
  playlists : List PlanGroup
deriving Repr, DecidableEq

/-- Enrichment of the Gemini output into the initial run state, main.py
lines 91-96: every playlist gets status PENDING, its video_indices become
PENDING track tasks, and youtube_playlist_id starts as None. -/
def enrich (pd : PlanData) : List Playlist :=
  pd.playlists.map (fun g =>
    { playlist_title := g.playlist_title
      playlist_description := g.playlist_description
      status := "PENDING"
      youtube_playlist_id := none
      tracks := g.video_indices.map (fun i => { index := i, status := "PENDING" }) })

/-- The Planner step of run_analysis_phase, main.py lines 82-98: the
argument is the result of generate_playlists_from_videos, which is None
when the Gemini call raised an APIError or returned an empty response
(gemini_logic.py lines 89-109).  A falsy result prints a FATAL diagnostic
and calls sys.exit(1); otherwise the enriched initial state is built (and
saved).  The id collection and metadata fetch of lines 72-79 are modelled
separately by fetch_all_playlist_track_ids and
fetch_video_details_in_batches. -/
def run_analysis_phase (plan : Option PlanData) : Outcome (List Playlist) :=
  match plan with
  | none => .exits 1
  | some pd => .ok (enrich pd)

/- ## State store: save_state as a file-operation trace (main.py lines 40-43) -/

/-- One operation on the state file performed by save_state. -/
inductive FileOp where
  | truncate
  | write (chunk : String)
deriving Repr, DecidableEq

/-- Serialization of the run state written by json.dump; the exact JSON
text does not matter for the claims, only that it is a total
deterministic function of the state. -/
def serializeState (st : List Playlist) : String := reprStr st

/-- save_state, main.py lines 40-43, as the sequence of operations it
performs on the target file: open(file_path, "w") truncates the file to
empty immediately, and only then does json.dump stream the new
serialization into it. -/
def save_state_ops (st : List Playlist) : List FileOp :=
  [FileOp.truncate, FileOp.write (serializeState st)]

/-- Effect of one file operation on the file content. -/
def applyOp (contents : String) : FileOp → String
  | .truncate => ""
  | .write s => contents ++ s

/-- Content of the file, previously holding prev, after the first k
operations of ops have run (an interruption after k operations). -/
def runOpsPrefix (prev : String) (ops : List FileOp) (k : Nat) : String :=
  (ops.take k).foldl applyOp prev

/- ## Specification predicates -/

/-- How one track task may evolve across a run of the Executor: its index
is never touched, and a status other than PENDING is never changed. -/
def TrackEvolves (t t1 : Track) : Prop :=
  t1.index = t.index ∧ (t.status ≠ "PENDING" → t1.status = t.status)

/-- How one grouping may evolve across a run of the Executor: title and
description are never touched, the status either stays or becomes
COMPLETED, the remote id only changes if it was falsy before, and the
tracks evolve pointwise. -/
def PlaylistEvolves (p p1 : Playlist) : Prop :=
  p1.playlist_title = p.playlist_title
  ∧ p1.playlist_description = p.playlist_description
  ∧ (p1.status = p.status ∨ p1.status = "COMPLETED")
  ∧ (p1.youtube_playlist_id = p.youtube_playlist_id
      ∨ truthyOptStr p.youtube_playlist_id = false)
  ∧ List.Forall₂ TrackEvolves p.tracks p1.tracks

/-- Pointwise evolution of a whole run state: same groupings, in order,
each evolved. -/
def StateEvolves (st st1 : List Playlist) : Prop :=
  List.Forall₂ PlaylistEvolves st st1

/-- The COMPLETED invariant of the data model: a grouping is COMPLETED
only when every one of its track tasks has a status other than PENDING. -/
def StateInv (st : List Playlist) : Prop :=
  ∀ p ∈ st, p.status = "COMPLETED" → ∀ t ∈ p.tracks, t.status ≠ "PENDING"

/- ## Concrete inputs used by counterexamples and witnesses -/

/-- A remote service whose every call fails with an HTTP 403 quota error. -/
def envQuota : Env :=
  { create := fun _ _ _ => .error { status := 403, msg := "quotaExceeded" }
    insert := fun _ _ _ => .error { status := 403, msg := "quotaExceeded" } }

/-- A remote service whose every call fails with a non-quota error. -/
def envFail : Env :=
  { create := fun _ _ _ => .error { status := 400, msg := "backendError" }
    insert := fun _ _ _ => .error { status := 400, msg := "backendError" } }

/-- A remote service whose every call succeeds. -/
def envOk : Env :=
  { create := fun _ _ _ => .ok "PL1"
    insert := fun _ _ _ => .ok () }

/-- A remote membership listing: one source playlist whose listing pages
to two pages, yielding ids b then a. -/
def pagesEx : String → List (List String) := fun _ => [["b"], ["a"]]

/-- A remote metadata catalogue resolving only the id v1. -/
def resolveEx : String → Option VideoRecord := fun s =>
  if s = "v1" then some { video_id := "v1", title := "T", description := "D" } else none

/-- A one-entry video info cache. -/
def cacheEx : List VideoRecord :=
  [{ video_id := "v1", title := "T1", description := "D1" }]

/-- A freshly planned grouping: PENDING, no remote id, one PENDING track. -/
def pFresh : Playlist :=
  { playlist_title := "New", playlist_description := ""
    status := "PENDING", youtube_playlist_id := none
    tracks := [{ index := 0, status := "PENDING" }] }

/-- A grouping with a remote id whose only track already FAILED, but whose
status is still PENDING. -/
def pAllFailed : Playlist :=
  { playlist_title := "A", playlist_description := ""
    status := "PENDING", youtube_playlist_id := some "Y"
    tracks := [{ index := 0, status := "FAILED" }] }

/-- A grouping without a remote id whose only track already FAILED. -/
def pNoId : Playlist :=
  { playlist_title := "B", playlist_description := ""
    status := "PENDING", youtube_playlist_id := none
    tracks := [{ index := 0, status := "FAILED" }] }

/-- A fully completed grouping. -/
def pDone : Playlist :=
  { playlist_title := "C", playlist_description := ""
    status := "COMPLETED", youtube_playlist_id := some "Y"
    tracks := [{ index := 0, status := "COMPLETED" }] }

/- ## Helper lemmas: unfolding equations for the executor loops -/

theorem runTracks_nil (env : Env) (cache : List VideoRecord) (pid : String)
    (n : Nat) : runTracks env cache pid [] n = ([], n, false) := by
  simp [runTracks]

theorem runTracks_notPending (env : Env) (cache : List VideoRecord) (pid : String)
    (t : Track) (ts : List Track) (n : Nat) (hp : t.status ≠ "PENDING") :
    runTracks env cache pid (t :: ts) n =
      (t :: (runTracks env cache pid ts n).1, (runTracks env cache pid ts n).2) := by
  simp [runTracks, hp]

theorem runTracks_skipNone (env : Env) (cache : List VideoRecord) (pid : String)
    (t : Track) (ts : List Track) (n : Nat) (hp : t.status = "PENDING")
    (hidx : index_to_video_id cache t.index = none) :
    runTracks env cache pid (t :: ts) n =
      ({ t with status := "SKIPPED" } :: (runTracks env cache pid ts n).1,
        (runTracks env cache pid ts n).2) := by
  simp [runTracks, hp, hidx]

theorem runTracks_skipEmpty (env : Env) (cache : List VideoRecord) (pid : String)
    (t : Track) (ts : List Track) (n : Nat) (hp : t.status = "PENDING")
    (hidx : index_to_video_id cache t.index = some "") :
    runTracks env cache pid (t :: ts) n =
      ({ t with status := "SKIPPED" } :: (runTracks env cache pid ts n).1,
        (runTracks env cache pid ts n).2) := by
  simp [runTracks, hp, hidx]

theorem runTracks_ok (env : Env) (cache : List VideoRecord) (pid : String)
    (t : Track) (ts : List Track) (n : Nat) (tid : String) (hp : t.status = "PENDING")
    (hidx : index_to_video_id cache t.index = some tid) (htid : tid ≠ "")
    (hins : env.insert n pid tid = .ok ()) :
    runTracks env cache pid (t :: ts) n =
      ({ t with status := "COMPLETED" } :: (runTracks env cache pid ts (n + 1)).1,
        (runTracks env cache pid ts (n + 1)).2) := by
  simp [runTracks, hp, hidx, htid, hins]

theorem runTracks_fail (env : Env) (cache : List VideoRecord) (pid : String)
    (t : Track) (ts : List Track) (n : Nat) (tid : String) (e : HttpErr)
    (hp : t.status = "PENDING") (hidx : index_to_video_id cache t.index = some tid)
    (htid : tid ≠ "") (hins : env.insert n pid tid = .error e)
    (hq : isQuotaError e = false) :
    runTracks env cache pid (t :: ts) n =
      ({ t with status := "FAILED" } :: (runTracks env cache pid ts (n + 1)).1,
        (runTracks env cache pid ts (n + 1)).2) := by
  simp [runTracks, hp, hidx, htid, hins, hq]

theorem runTracks_quota (env : Env) (cache : List VideoRecord) (pid : String)
    (t : Track) (ts : List Track) (n : Nat) (tid : String) (e : HttpErr)
    (hp : t.status = "PENDING") (hidx : index_to_video_id cache t.index = some tid)
    (htid : tid ≠ "") (hins : env.insert n pid tid = .error e)
    (hq : isQuotaError e = true) :
    runTracks env cache pid (t :: ts) n = (t :: ts, n + 1, true) := by
  simp [runTracks, hp, hidx, htid, hins, hq]

theorem runPlaylists_nil (env : Env) (cache : List VideoRecord) (n : Nat) :
    runPlaylists env cache [] n = ([], n, false) := by
  simp [runPlaylists]

theorem runPlaylists_completed (env : Env) (cache : List VideoRecord)
    (p : Playlist) (ps : List Playlist) (n : Nat) (hc : p.status = "COMPLETED") :
    runPlaylists env cache (p :: ps) n =
      (p :: (runPlaylists env cache ps n).1, (runPlaylists env cache ps n).2) := by
  simp [runPlaylists, hc]

theorem runPlaylists_quotaStop (env : Env) (cache : List VideoRecord)
    (p : Playlist) (ps : List Playlist) (n n1 : Nat) (hc : p.status ≠ "COMPLETED")
    (h : createStep env p n = .quotaStop n1) :
    runPlaylists env cache (p :: ps) n = (p :: ps, n1, true) := by
  simp [runPlaylists, hc, h]

theorem runPlaylists_skip (env : Env) (cache : List VideoRecord)
    (p : Playlist) (ps : List Playlist) (n n1 : Nat) (hc : p.status ≠ "COMPLETED")
    (h : createStep env p n = .skip n1) :
    runPlaylists env cache (p :: ps) n =
      (p :: (runPlaylists env cache ps n1).1, (runPlaylists env cache ps n1).2) := by
  simp [runPlaylists, hc, h]

theorem runPlaylists_ready_quota (env : Env) (cache : List VideoRecord)
    (p p1 : Playlist) (ps : List Playlist) (n n1 : Nat) (hc : p.status ≠ "COMPLETED")
    (h : createStep env p n = .ready p1 n1)
    (hq : (runTracks env cache (p1.youtube_playlist_id.getD "") p1.tracks n1).2.2 = true) :
    runPlaylists env cache (p :: ps) n =
      ({ p1 with
          tracks := (runTracks env cache (p1.youtube_playlist_id.getD "") p1.tracks n1).1 }
        :: ps,
        (runTracks env cache (p1.youtube_playlist_id.getD "") p1.tracks n1).2.1, true) := by
  simp [runPlaylists, hc, h, hq]

theorem runPlaylists_ready_through (env : Env) (cache : List VideoRecord)
    (p p1 : Playlist) (ps : List Playlist) (n n1 : Nat) (hc : p.status ≠ "COMPLETED")
    (h : createStep env p n = .ready p1 n1)
    (hq : (runTracks env cache (p1.youtube_playlist_id.getD "") p1.tracks n1).2.2 = false) :
    runPlaylists env cache (p :: ps) n =
      ({ p1 with
          tracks := (runTracks env cache (p1.youtube_playlist_id.getD "") p1.tracks n1).1,
          status :=
            if (runTracks env cache (p1.youtube_playlist_id.getD "") p1.tracks n1).1.all
                (fun t => decide (t.status ≠ "PENDING")) then "COMPLETED" else p1.status }
        ::
        (runPlaylists env cache ps
          (runTracks env cache (p1.youtube_playlist_id.getD "") p1.tracks n1).2.1).1,
        (runPlaylists env cache ps
          (runTracks env cache (p1.youtube_playlist_id.getD "") p1.tracks n1).2.1).2) := by
  simp [runPlaylists, hc, h, hq]

/-- The creation step never touches title, description, status or tracks,
and only replaces a falsy remote id. -/
theorem createStep_ready_spec (env : Env) (p p1 : Playlist) (n n1 : Nat)
    (h : createStep env p n = .ready p1 n1) :
    p1.playlist_title = p.playlist_title
    ∧ p1.playlist_description = p.playlist_description
    ∧ p1.status = p.status
    ∧ p1.tracks = p.tracks
    ∧ (p1.youtube_playlist_id = p.youtube_playlist_id
        ∨ truthyOptStr p.youtube_playlist_id = false) := by
  unfold createStep at h
  by_cases ht : truthyOptStr p.youtube_playlist_id
  · simp [ht] at h
    obtain ⟨h1, _⟩ := h
    subst h1
    exact ⟨rfl, rfl, rfl, rfl, Or.inl rfl⟩
  · simp [ht] at h
    cases hcr : env.create n p.playlist_title p.playlist_description with
    | ok pid =>
      rw [hcr] at h
      simp at h
      obtain ⟨h1, _⟩ := h
      subst h1
      exact ⟨rfl, rfl, rfl, rfl, Or.inr (by simpa using ht)⟩
    | error e =>
      rw [hcr] at h
      by_cases hq : isQuotaError e <;> simp [hq] at h

theorem trackEvolves_rfl (t : Track) : TrackEvolves t t :=
  ⟨rfl, fun _ => rfl⟩

theorem tracksEvolve_rfl (ts : List Track) : List.Forall₂ TrackEvolves ts ts :=
  List.forall₂_same.mpr (fun t _ => trackEvolves_rfl t)

theorem playlistEvolves_rfl (p : Playlist) : PlaylistEvolves p p :=
  ⟨rfl, rfl, Or.inl rfl, Or.inl rfl, tracksEvolve_rfl p.tracks⟩

theorem stateEvolves_rfl (st : List Playlist) : StateEvolves st st :=
  List.forall₂_same.mpr (fun p _ => playlistEvolves_rfl p)

/-- The track loop only rewrites statuses of PENDING tracks and never
touches an index. -/
theorem runTracks_evolves (env : Env) (cache : List VideoRecord) (pid : String) :
    ∀ (ts : List Track) (n : Nat),
      List.Forall₂ TrackEvolves ts (runTracks env cache pid ts n).1 := by
  intro ts
  induction ts with
  | nil => intro n; simp [runTracks_nil]
  | cons t ts ih =>
    intro n
    by_cases hp : t.status = "PENDING"
    · cases hidx : index_to_video_id cache t.index with
      | none =>
        rw [runTracks_skipNone env cache pid t ts n hp hidx]
        exact List.Forall₂.cons ⟨rfl, fun hne => absurd hp hne⟩ (ih n)
      | some tid =>
        by_cases htid : tid = ""
        · subst htid
          rw [runTracks_skipEmpty env cache pid t ts n hp hidx]
          exact List.Forall₂.cons ⟨rfl, fun hne => absurd hp hne⟩ (ih n)
        · cases hins : env.insert n pid tid with
          | ok u =>
            cases u
            rw [runTracks_ok env cache pid t ts n tid hp hidx htid hins]
            exact List.Forall₂.cons ⟨rfl, fun hne => absurd hp hne⟩ (ih (n + 1))
          | error e =>
            cases hq : isQuotaError e with
            | true =>
              rw [runTracks_quota env cache pid t ts n tid e hp hidx htid hins hq]
              exact List.Forall₂.cons (trackEvolves_rfl t) (tracksEvolve_rfl ts)
            | false =>
              rw [runTracks_fail env cache pid t ts n tid e hp hidx htid hins hq]
              exact List.Forall₂.cons ⟨rfl, fun hne => absurd hp hne⟩ (ih (n + 1))
    · rw [runTracks_notPending env cache pid t ts n hp]
      exact List.Forall₂.cons (trackEvolves_rfl t) (ih n)

/-- The playlist loop only evolves the state: titles, descriptions and
track indices are kept, non-PENDING statuses are kept, remote ids are only
filled in when previously falsy. -/
theorem runPlaylists_evolves (env : Env) (cache : List VideoRecord) :
    ∀ (st : List Playlist) (n : Nat),
      StateEvolves st (runPlaylists env cache st n).1 := by
  intro st
  induction st with
  | nil => intro n; simp [runPlaylists_nil, StateEvolves]
  | cons p ps ih =>
    intro n
    by_cases hc : p.status = "COMPLETED"
    · rw [runPlaylists_completed env cache p ps n hc]
      exact List.Forall₂.cons (playlistEvolves_rfl p) (ih n)
    · cases hcs : createStep env p n with
      | quotaStop n1 =>
        rw [runPlaylists_quotaStop env cache p ps n n1 hc hcs]
        exact List.Forall₂.cons (playlistEvolves_rfl p) (stateEvolves_rfl ps)
      | skip n1 =>
        rw [runPlaylists_skip env cache p ps n n1 hc hcs]
        exact List.Forall₂.cons (playlistEvolves_rfl p) (ih n1)
      | ready p1 n1 =>
        obtain ⟨het, hed, hes, hetr, heid⟩ := createStep_ready_spec env p p1 n n1 hcs
        cases hq : (runTracks env cache (p1.youtube_playlist_id.getD "") p1.tracks n1).2.2 with
        | true =>
          rw [runPlaylists_ready_quota env cache p p1 ps n n1 hc hcs hq]
          refine List.Forall₂.cons ⟨het, hed, Or.inl hes, heid, ?_⟩ (stateEvolves_rfl ps)
          rw [← hetr]
          exact runTracks_evolves env cache (p1.youtube_playlist_id.getD "") p1.tracks n1
        | false =>
          rw [runPlaylists_ready_through env cache p p1 ps n n1 hc hcs hq]
          refine List.Forall₂.cons ⟨het, hed, ?_, heid, ?_⟩
            (ih (runTracks env cache (p1.youtube_playlist_id.getD "") p1.tracks n1).2.1)
          · cases hdone :
              (runTracks env cache (p1.youtube_playlist_id.getD "") p1.tracks n1).1.all
                (fun t => decide (t.status ≠ "PENDING")) with
            | true => exact Or.inr (by simp)
            | false => exact Or.inl (by simpa using hes)
          · rw [← hetr]
            exact runTracks_evolves env cache (p1.youtube_playlist_id.getD "") p1.tracks n1

/-- A track list without PENDING entries passes through the track loop
untouched, with no remote call and no quota stop. -/
theorem runTracks_noPending (env : Env) (cache : List VideoRecord) (pid : String) :
    ∀ (ts : List Track) (n : Nat), (∀ t ∈ ts, t.status ≠ "PENDING") →
      runTracks env cache pid ts n = (ts, n, false) := by
  intro ts
  induction ts with
  | nil => intro n _; exact runTracks_nil env cache pid n
  | cons t ts ih =>
    intro n h
    rw [runTracks_notPending env cache pid t ts n (h t (List.mem_cons_self t ts))]
    rw [ih n (fun u hu => h u (List.mem_cons_of_mem t hu))]

/-- A state whose groupings are all COMPLETED passes through the playlist
loop untouched, with no remote call and no quota stop. -/
theorem runPlaylists_allCompleted (env : Env) (cache : List VideoRecord) :
    ∀ (st : List Playlist) (n : Nat), (∀ p ∈ st, p.status = "COMPLETED") →
      runPlaylists env cache st n = (st, n, false) := by
  intro st
  induction st with
  | nil => intro n _; exact runPlaylists_nil env cache n
  | cons p ps ih =>
    intro n h
    rw [runPlaylists_completed env cache p ps n (h p (List.mem_cons_self p ps))]
    rw [ih n (fun q hq => h q (List.mem_cons_of_mem p hq))]

/-- The playlist loop preserves the COMPLETED invariant: in its output a
COMPLETED grouping has no PENDING track. -/
theorem runPlaylists_inv (env : Env) (cache : List VideoRecord) :
    ∀ (st : List Playlist) (n : Nat), StateInv st →
      StateInv (runPlaylists env cache st n).1 := by
  intro st
  induction st with
  | nil => intro n _; simp [runPlaylists_nil, StateInv]
  | cons p ps ih =>
    intro n hinv
    have hp := hinv p (List.mem_cons_self p ps)
    have hps : StateInv ps := fun q hq => hinv q (List.mem_cons_of_mem p hq)
    by_cases hc : p.status = "COMPLETED"
    · rw [runPlaylists_completed env cache p ps n hc]
      intro q hq
      rcases List.mem_cons.mp hq with h1 | h1
      · subst h1; exact hp
      · exact ih n hps q h1
    · cases hcs : createStep env p n with
      | quotaStop n1 =>
        rw [runPlaylists_quotaStop env cache p ps n n1 hc hcs]
        exact hinv
      | skip n1 =>
        rw [runPlaylists_skip env cache p ps n n1 hc hcs]
        intro q hq
        rcases List.mem_cons.mp hq with h1 | h1
        · subst h1; exact hp
        · exact ih n1 hps q h1
      | ready p1 n1 =>
        obtain ⟨_, _, hes, _, _⟩ := createStep_ready_spec env p p1 n n1 hcs
        cases hq : (runTracks env cache (p1.youtube_playlist_id.getD "") p1.tracks n1).2.2 with
        | true =>
          rw [runPlaylists_ready_quota env cache p p1 ps n n1 hc hcs hq]
          intro q hq1
          rcases List.mem_cons.mp hq1 with h1 | h1
          · subst h1
            intro habs
            exact absurd (hes ▸ habs) hc
          · exact hps q h1
        | false =>
          rw [runPlaylists_ready_through env cache p p1 ps n n1 hc hcs hq]
          intro q hq1
          rcases List.mem_cons.mp hq1 with h1 | h1
          · subst h1
            cases hdone :
              (runTracks env cache (p1.youtube_playlist_id.getD "") p1.tracks n1).1.all
                (fun t => decide (t.status ≠ "PENDING")) with
            | true =>
              intro _ t ht
              have := List.all_eq_true.mp hdone t ht
              simpa using this
            | false =>
              intro habs
              simp at habs
              exact absurd (hes ▸ habs) hc
          · exact ih
              (runTracks env cache (p1.youtube_playlist_id.getD "") p1.tracks n1).2.1 hps q h1

/- ## Helper lemmas: the batched metadata fetch -/

theorem chunks50_flatten : ∀ ids : List String, (chunks50 ids).flatten = ids := by
  intro ids
  induction ids using chunks50.induct with
  | case1 => simp [chunks50]
  | case2 x xs ih =>
    rw [chunks50]
    simp only [List.flatten_cons, ih]
    exact List.take_append_drop 50 (x :: xs)

theorem chunks50_length_le : ∀ ids : List String, ∀ b ∈ chunks50 ids, b.length ≤ 50 := by
  intro ids
  induction ids using chunks50.induct with
  | case1 => simp [chunks50]
  | case2 x xs ih =>
    intro b hb
    rw [chunks50] at hb
    rcases List.mem_cons.mp hb with h | h
    · subst h; exact List.length_take_le 50 (x :: xs)
    · exact ih b h

theorem fetch_details_chunks (resolve : String → Option VideoRecord) :
    ∀ ids : List String,
      fetch_video_details_in_batches resolve ids
        = ((chunks50 ids).map (fun b => b.filterMap resolve)).flatten := by
  intro ids
  induction ids using chunks50.induct with
  | case1 => simp [chunks50, fetch_video_details_in_batches]
  | case2 x xs ih =>
    rw [chunks50, fetch_video_details_in_batches]
    simp only [List.map_cons, List.flatten_cons, ih]

theorem fetch_details_filterMap (resolve : String → Option VideoRecord) :
    ∀ ids : List String,
      fetch_video_details_in_batches resolve ids = ids.filterMap resolve := by
  intro ids
  induction ids using chunks50.induct with
  | case1 => simp [fetch_video_details_in_batches]
  | case2 x xs ih =>
    rw [fetch_video_details_in_batches, ih, ← List.filterMap_append,
      List.take_append_drop]

/- ## Helper lemmas: the id collection -/

/-- The concrete membership listing pagesEx collects b then a from the
single source playlist P, and the list a, b is one of the enumerations a
Python set built from it can produce. -/
theorem setEnumEx : IsSetEnum ["a", "b"] (fetch_all_playlist_track_ids pagesEx ["P"]) := by
  constructor
  · decide
  · intro x
    have hcol : fetch_all_playlist_track_ids pagesEx ["P"] = ["b", "a"] := rfl
    rw [hcol]
    simp only [List.mem_cons, List.not_mem_nil, or_false]
    exact Or.comm

/- ## Helper lemmas: the execution phase wrapper -/

theorem run_execution_phase_spec (env : Env) (cache : List VideoRecord)
    (st : List Playlist) :
    (run_execution_phase env cache st).final = (runPlaylists env cache st 0).1
    ∧ (run_execution_phase env cache st).saved = [(runPlaylists env cache st 0).1]
    ∧ (run_execution_phase env cache st).calls = (runPlaylists env cache st 0).2.1
    ∧ (run_execution_phase env cache st).code
        = (if (runPlaylists env cache st 0).2.2 then some 0 else none) := by
  unfold run_execution_phase
  cases h : (runPlaylists env cache st 0).2.2 with
  | true => simp [h]
  | false => simp [h]

/- ## Claim theorems -/

/-- C1: whenever a remote write call of the execution phase fails with an
HTTP 403 whose text indicates a quota condition (the quota flag of the run
is set), the program persists exactly the complete current run state (the
one snapshot saved is the final in-memory state, every grouping included)
and terminates with exit status 0; the state only evolved from the input
state (titles, descriptions and indices intact, non-PENDING statuses
never overwritten), so no status update made before the error is lost. -/
theorem C1_quota_persists_and_exits_zero (env : Env) (cache : List VideoRecord)
    (st : List Playlist) (h : (runPlaylists env cache st 0).2.2 = true) :
    (run_execution_phase env cache st).code = some 0
    ∧ (run_execution_phase env cache st).saved
        = [(run_execution_phase env cache st).final]
    ∧ StateEvolves st (run_execution_phase env cache st).final := by
  obtain ⟨hf, hs, _, hc⟩ := run_execution_phase_spec env cache st
  refine ⟨?_, ?_, ?_⟩
  · rw [hc, h]; rfl
  · rw [hs, hf]
  · rw [hf]; exact runPlaylists_evolves env cache st 0

/-- C1 witness: a quota failure on the very first creation call saves the
whole state and exits 0. -/
theorem C1_quota_witness :
    (run_execution_phase envQuota cacheEx [pFresh]).code = some 0
    ∧ (run_execution_phase envQuota cacheEx [pFresh]).saved
        = [(run_execution_phase envQuota cacheEx [pFresh]).final]
    ∧ StateEvolves [pFresh] (run_execution_phase envQuota cacheEx [pFresh]).final :=
  C1_quota_persists_and_exits_zero envQuota cacheEx [pFresh] (by decide)

/-- C2 counterexample: the code returns a Python set (youtube_api.py line
44), whose iteration order is implementation defined; the enumeration a,
b of the set of ids collected from pagesEx (collected order b then a) is
a legitimate set enumeration, yet differs from the first-seen order b, a,
so the claimed first-seen iteration order does not hold of the code. -/
theorem C2_set_order_counterexample :
    IsSetEnum ["a", "b"] (fetch_all_playlist_track_ids pagesEx ["P"])
    ∧ firstSeen (fetch_all_playlist_track_ids pagesEx ["P"]) = ["b", "a"]
    ∧ (["a", "b"] : List String) ≠ ["b", "a"] :=
  ⟨setEnumEx, by decide, by decide⟩

/-- C2 amended: collect_unique_ids returns each collected identifier
exactly once (any enumeration of the returned set is duplicate-free and
holds exactly the collected identifiers), but the iteration order is an
arbitrary enumeration of the set, not necessarily the first-seen order. -/
theorem C2_amended_dedup (pages : String → List (List String))
    (pids : List String) (l : List String)
    (h : IsSetEnum l (fetch_all_playlist_track_ids pages pids)) :
    (∀ x ∈ fetch_all_playlist_track_ids pages pids, l.count x = 1)
    ∧ ∀ x, x ∈ l ↔ x ∈ fetch_all_playlist_track_ids pages pids := by
  obtain ⟨hnd, hmem⟩ := h
  exact ⟨fun x hx => List.count_eq_one_of_mem hnd ((hmem x).mpr hx), hmem⟩

/-- C2 witness: the enumeration a, b of the ids collected from pagesEx
holds each collected id exactly once. -/
theorem C2_amended_witness :
    (∀ x ∈ fetch_all_playlist_track_ids pagesEx ["P"],
      (["a", "b"] : List String).count x = 1)
    ∧ ∀ x, x ∈ (["a", "b"] : List String)
        ↔ x ∈ fetch_all_playlist_track_ids pagesEx ["P"] :=
  C2_amended_dedup pagesEx ["P"] ["a", "b"] setEnumEx

/-- C3 counterexample: a run state with no PENDING track task is not left
unchanged by the Executor: a grouping with a remote id whose tracks are
all FAILED is not COMPLETED yet, and the run rewrites its status to
COMPLETED, so the final state differs from the input state. -/
theorem C3_not_unchanged_counterexample :
    (∀ p ∈ [pAllFailed], ∀ t ∈ p.tracks, t.status ≠ "PENDING")
    ∧ (run_execution_phase envOk cacheEx [pAllFailed]).final ≠ [pAllFailed] := by
  constructor
  · decide
  · decide

/-- C3 amended: on a run state in which every grouping has status
COMPLETED, the Executor performs zero remote calls, does not exit, and
leaves the state unchanged; running it twice in succession is therefore a
no-op. -/
theorem C3_amended_idempotent (env env2 : Env) (cache : List VideoRecord)
    (st : List Playlist) (h : ∀ p ∈ st, p.status = "COMPLETED") :
    (run_execution_phase env cache st).final = st
    ∧ (run_execution_phase env cache st).calls = 0
    ∧ (run_execution_phase env cache st).code = none
    ∧ (run_execution_phase env2 cache (run_execution_phase env cache st).final).final
        = st := by
  obtain ⟨hf, _, hca, hc⟩ := run_execution_phase_spec env cache st
  have hrun := runPlaylists_allCompleted env cache st 0 h
  have hfinal : (run_execution_phase env cache st).final = st := by rw [hf, hrun]
  refine ⟨hfinal, ?_, ?_, ?_⟩
  · rw [hca, hrun]
  · rw [hc, hrun]; rfl
  · obtain ⟨hf2, _, _, _⟩ :=
      run_execution_phase_spec env2 cache (run_execution_phase env cache st).final
    rw [hf2, hfinal, runPlaylists_allCompleted env2 cache st 0 h]

/-- C3 witness: a single fully COMPLETED grouping passes through two runs
untouched with zero remote calls. -/
theorem C3_amended_witness :
    (run_execution_phase envOk cacheEx [pDone]).final = [pDone]
    ∧ (run_execution_phase envOk cacheEx [pDone]).calls = 0
    ∧ (run_execution_phase envOk cacheEx [pDone]).code = none
    ∧ (run_execution_phase envFail cacheEx
        (run_execution_phase envOk cacheEx [pDone]).final).final = [pDone] :=
  C3_amended_idempotent envOk envFail cacheEx [pDone] (by decide)

/-- C4: of the fatal startup conditions, a missing config.json, a missing
or falsy state or cache file on resume, and a failed or empty AI grouping
response all exit with status 1; but a failed Gemini client
initialization (missing credentials) calls the bare builtin exit(), which
terminates the process with exit status 0, contradicting the claimed
non-zero exit status. -/
theorem C4_startup_exit_codes :
    load_config none = Outcome.exits 1
    ∧ run_execution_phase_files envOk none none = Outcome.exits 1
    ∧ run_analysis_phase none = Outcome.exits 1
    ∧ get_gemini_client (Except.error "GEMINI_API_KEY is not set" : Except String Unit)
        = Outcome.exits 0 :=
  ⟨rfl, rfl, rfl, rfl⟩

/-- C5: save_state opens the target with mode w, which truncates the
previous snapshot to empty as its very first file operation, before any of
the new serialized content is written: an interruption after the open and
before the dump completes leaves neither the old nor the new snapshot. -/
theorem C5_truncates_before_writing :
    (∀ st : List Playlist, (save_state_ops st).head? = some FileOp.truncate)
    ∧ runOpsPrefix "OLD" (save_state_ops [pDone]) 1 = ""
    ∧ runOpsPrefix "OLD" (save_state_ops [pDone]) 2 = serializeState [pDone]
    ∧ ("" : String) ≠ "OLD" := by
  refine ⟨fun st => rfl, rfl, ?_, by decide⟩
  simp [runOpsPrefix, save_state_ops, applyOp]

/-- C6: if the input run state satisfies the COMPLETED invariant (a
COMPLETED grouping has no PENDING track), then every state the execution
phase persists, including a snapshot saved on quota interruption,
satisfies it as well: the Executor marks a grouping COMPLETED only after
checking that no track of it is left PENDING. -/
theorem C6_completed_invariant (env : Env) (cache : List VideoRecord)
    (st : List Playlist) (h : StateInv st) :
    ∀ s ∈ (run_execution_phase env cache st).saved, StateInv s := by
  obtain ⟨_, hs, _, _⟩ := run_execution_phase_spec env cache st
  intro s hsmem
  rw [hs, List.mem_singleton] at hsmem
  subst hsmem
  exact runPlaylists_inv env cache st 0 h

/-- C6 witness: the state persisted after running a fresh grouping against
a successful remote service satisfies the COMPLETED invariant. -/
theorem C6_completed_witness :
    StateInv (run_execution_phase envOk cacheEx [pFresh]).final :=
  C6_completed_invariant envOk cacheEx [pFresh] (by unfold StateInv; decide)
    (run_execution_phase envOk cacheEx [pFresh]).final (by decide)

/-- C7: a non-quota creation error leaves the grouping untouched (none of
its tracks is attempted this run) and execution continues with the next
grouping; a non-quota insertion error marks exactly that track FAILED and
execution continues with the remaining tracks; neither error aborts the
run, since in both cases the loop result is the continuation of the
loop on the remaining input. -/
theorem C7_nonquota_errors_localized :
    (∀ (env : Env) (cache : List VideoRecord) (p : Playlist) (ps : List Playlist)
        (n : Nat) (e : HttpErr),
      p.status ≠ "COMPLETED" →
      truthyOptStr p.youtube_playlist_id = false →
      env.create n p.playlist_title p.playlist_description = .error e →
      isQuotaError e = false →
      runPlaylists env cache (p :: ps) n
        = (p :: (runPlaylists env cache ps (n + 1)).1,
            (runPlaylists env cache ps (n + 1)).2))
    ∧ (∀ (env : Env) (cache : List VideoRecord) (pid : String) (t : Track)
        (ts : List Track) (n : Nat) (tid : String) (e : HttpErr),
      t.status = "PENDING" →
      index_to_video_id cache t.index = some tid →
      tid ≠ "" →
      env.insert n pid tid = .error e →
      isQuotaError e = false →
      runTracks env cache pid (t :: ts) n
        = ({ t with status := "FAILED" } :: (runTracks env cache pid ts (n + 1)).1,
            (runTracks env cache pid ts (n + 1)).2)) := by
  constructor
  · intro env cache p ps n e hc hid hcr hq
    have hcs : createStep env p n = .skip (n + 1) := by
      simp [createStep, hid, hcr, hq]
    exact runPlaylists_skip env cache p ps n (n + 1) hc hcs
  · intro env cache pid t ts n tid e hp hidx htid hins hq
    exact runTracks_fail env cache pid t ts n tid e hp hidx htid hins hq

/-- C7 witness: with a remote service failing every call with a non-quota
error, a creation error skips to the next grouping and an insertion error
marks the single track FAILED, in both cases continuing the loop. -/
theorem C7_nonquota_witness :
    runPlaylists envFail cacheEx [pNoId, pDone] 0
      = (pNoId :: (runPlaylists envFail cacheEx [pDone] 1).1,
          (runPlaylists envFail cacheEx [pDone] 1).2)
    ∧ runTracks envFail cacheEx "Y" [{ index := 0, status := "PENDING" }] 0
      = ({ index := 0, status := "FAILED" }
          :: (runTracks envFail cacheEx "Y" [] 1).1,
          (runTracks envFail cacheEx "Y" [] 1).2) :=
  ⟨C7_nonquota_errors_localized.1 envFail cacheEx pNoId [pDone] 0
      { status := 400, msg := "backendError" } (by decide) (by decide) rfl (by decide),
    C7_nonquota_errors_localized.2 envFail cacheEx "Y" { index := 0, status := "PENDING" }
      [] 0 "v1" { status := 400, msg := "backendError" } (by decide) rfl (by decide) rfl
      (by decide)⟩

/-- C8: the batched metadata fetch equals the concatenation, in batch
order, of one response per consecutive batch; the batches partition the
input in order; every batch has at most 50 ids; and an id with no remote
record is silently omitted, so the whole result is the in-order filterMap
of the resolver over the input ids. -/
theorem C8_batched_fetch (resolve : String → Option VideoRecord) (ids : List String) :
    fetch_video_details_in_batches resolve ids
        = ((chunks50 ids).map (fun b => b.filterMap resolve)).flatten
    ∧ (chunks50 ids).flatten = ids
    ∧ (∀ b ∈ chunks50 ids, b.length ≤ 50)
    ∧ fetch_video_details_in_batches resolve ids = ids.filterMap resolve :=
  ⟨fetch_details_chunks resolve ids, chunks50_flatten ids,
    chunks50_length_le ids, fetch_details_filterMap resolve ids⟩

/-- C8 witness: on the ids v1, v2 with only v1 resolvable, the fetch
returns exactly the record of v1 and the batches flatten back to the
input. -/
theorem C8_batched_witness :
    fetch_video_details_in_batches resolveEx ["v1", "v2"]
        = (["v1", "v2"] : List String).filterMap resolveEx
    ∧ (chunks50 ["v1", "v2"]).flatten = ["v1", "v2"]
    ∧ (["v1", "v2"] : List String).length ≤ 50 :=
  ⟨(C8_batched_fetch resolveEx ["v1", "v2"]).2.2.2,
    (C8_batched_fetch resolveEx ["v1", "v2"]).2.1,
    (C8_batched_fetch resolveEx ["v1", "v2"]).2.2.1 ["v1", "v2"]
      (by rw [chunks50]; simp)⟩

/-- C9 counterexample: a grouping whose track tasks are all non-PENDING
(its only track is FAILED) but whose remote id is unset is neither marked
COMPLETED nor skipped on a later run: the Executor issues a playlist
creation call for it (one remote call) and, when creation fails with a
non-quota error, leaves its status PENDING. -/
theorem C9_not_skipped_counterexample :
    (∀ t ∈ pNoId.tracks, t.status ≠ "PENDING")
    ∧ (runPlaylists envFail [] [pNoId] 0).2.1 = 1
    ∧ (runPlaylists envFail [] [pNoId] 0).1 = [pNoId]
    ∧ pNoId.status = "PENDING" := by
  refine ⟨by decide, by decide, by decide, by decide⟩

/-- C9 amended: a FAILED track task is never changed by any run; a
grouping already COMPLETED is skipped untouched; and a grouping that is
not COMPLETED, whose remote id is set and whose tracks are all
non-PENDING is marked COMPLETED with no remote call and its tracks
untouched (a grouping without a remote id, by contrast, still receives a
creation call even when no track is PENDING). -/
theorem C9_failed_is_permanent :
    (∀ (env : Env) (cache : List VideoRecord) (st : List Playlist) (n : Nat),
      List.Forall₂
        (fun p p1 => List.Forall₂
          (fun t t1 => t.status = "FAILED" → t1.status = "FAILED") p.tracks p1.tracks)
        st (runPlaylists env cache st n).1)
    ∧ (∀ (env : Env) (cache : List VideoRecord) (p : Playlist) (ps : List Playlist)
        (n : Nat),
      p.status = "COMPLETED" →
      runPlaylists env cache (p :: ps) n
        = (p :: (runPlaylists env cache ps n).1, (runPlaylists env cache ps n).2))
    ∧ (∀ (env : Env) (cache : List VideoRecord) (p : Playlist) (ps : List Playlist)
        (n : Nat),
      p.status ≠ "COMPLETED" →
      truthyOptStr p.youtube_playlist_id = true →
      (∀ t ∈ p.tracks, t.status ≠ "PENDING") →
      runPlaylists env cache (p :: ps) n
        = ({ p with status := "COMPLETED" } :: (runPlaylists env cache ps n).1,
            (runPlaylists env cache ps n).2)) := by
  refine ⟨?_, ?_, ?_⟩
  · intro env cache st n
    refine List.Forall₂.imp ?_ (runPlaylists_evolves env cache st n)
    intro p p1 hp
    refine List.Forall₂.imp ?_ hp.2.2.2.2
    intro t t1 ht hf
    exact (ht.2 (by simp [hf])).trans hf
  · intro env cache p ps n hc
    exact runPlaylists_completed env cache p ps n hc
  · intro env cache p ps n hc hid hnp
    have hcs : createStep env p n = .ready p n := by simp [createStep, hid]
    have hrt : runTracks env cache (p.youtube_playlist_id.getD "") p.tracks n
        = (p.tracks, n, false) :=
      runTracks_noPending env cache (p.youtube_playlist_id.getD "") p.tracks n hnp
    have hq : (runTracks env cache (p.youtube_playlist_id.getD "") p.tracks n).2.2
        = false := by rw [hrt]
    rw [runPlaylists_ready_through env cache p p ps n n hc hcs hq]
    have hall : p.tracks.all (fun t => decide (t.status ≠ "PENDING")) = true :=
      List.all_eq_true.mpr (fun t ht => by simpa using hnp t ht)
    simp [hrt, hall]
    intro x hx hpend
    exact absurd hpend (hnp x hx)

/-- C9 witness: a grouping with a remote id whose only track is FAILED is
marked COMPLETED with its FAILED track untouched and no remote call. -/
theorem C9_failed_witness :
    runPlaylists envOk cacheEx [pAllFailed] 0
      = ({ pAllFailed with status := "COMPLETED" }
          :: (runPlaylists envOk cacheEx [] 0).1, (runPlaylists envOk cacheEx [] 0).2) :=
  C9_failed_is_permanent.2.2 envOk cacheEx pAllFailed [] 0
    (by decide) (by decide) (by decide)

/-- C10: a state or cache file that exists but whose JSON content parses
to a falsy value (such as an empty object or empty array) is treated by
the execution phase exactly like a missing file: the run aborts with exit
status 1, identically to the missing-file case, before any execution; and
since the state file exists on disk, the Collector and Planner phase is
not re-run either. -/
theorem C10_falsy_state_like_missing (env : Env) (sf cf : Option J) (j : J)
    (h : J.truthy j = false) :
    run_execution_phase_files env (some j) cf = Outcome.exits 1
    ∧ run_execution_phase_files env (some j) cf = run_execution_phase_files env none cf
    ∧ run_execution_phase_files env sf (some j) = Outcome.exits 1
    ∧ run_execution_phase_files env sf (some j) = run_execution_phase_files env sf none
    ∧ phase1_runs true = false := by
  refine ⟨?_, ?_, ?_, ?_, rfl⟩
  · cases cf with
    | none => rfl
    | some c => simp [run_execution_phase_files, load_state, h]
  · cases cf with
    | none => rfl
    | some c => simp [run_execution_phase_files, load_state, h]
  · cases sf with
    | none => rfl
    | some s => simp [run_execution_phase_files, load_state, h]
  · cases sf with
    | none => rfl
    | some s => simp [run_execution_phase_files, load_state, h]

/-- C10 witness: an existing state file holding the empty JSON object and
an existing cache file holding the empty JSON array abort the resume with
exit status 1, exactly like missing files. -/
theorem C10_falsy_witness :
    run_execution_phase_files envOk (some (J.obj [])) (some (J.arr [])) = Outcome.exits 1
    ∧ run_execution_phase_files envOk (some (J.obj [])) (some (J.arr []))
        = run_execution_phase_files envOk none (some (J.arr []))
    ∧ run_execution_phase_files envOk (some (J.arr [])) (some (J.obj [])) = Outcome.exits 1
    ∧ run_execution_phase_files envOk (some (J.arr [])) (some (J.obj []))
        = run_execution_phase_files envOk (some (J.arr [])) none
    ∧ phase1_runs true = false :=
  C10_falsy_state_like_missing envOk (some (J.arr [])) (some (J.arr [])) (J.obj []) rfl

end PlaylistRearrange
